import Mathlib

/-!
Verification development for the navi-trip-planner repository.

Shallow embedding of the logic under verification:
* `src/components/ItineraryMap.tsx` — location resolution (exact match,
  case-insensitive substring match, randomized fallback), day colors,
  marker construction, and the map-instance lifecycle.
* `src/hooks/useItinerary.ts` — PDF pagination loop and the data-access
  operations' signed-out guards.
* `src/components/Weather.tsx` — weather-code categorisation and the
  fetch-failure fallback state.

Conventions: JavaScript numbers are modelled as `ℚ` (the quantities involved
are exact decimals and the claims concern exact ranges, not float rounding);
`Math.random()` results are passed in as explicit parameters in `[0,1)`;
strings are Lean `String`s (`String.toLower` lowers exactly the ASCII range,
matching `String.prototype.toLowerCase` on the ASCII place names used here).
Bracket access on the coordinate table models full JavaScript property
lookup, including members inherited from `Object.prototype`
(`bracketRead` / `resolveLocationJS`).
-/

namespace NaviTrip

/-- JavaScript `String.prototype.toLowerCase`, modelled character-wise with
`Char.toLower` (which lowers exactly `A`–`Z`, agreeing with `toLowerCase` on
the ASCII place names and inputs this table uses). -/
def lowerString (s : String) : String := ⟨s.data.map Char.toLower⟩

/-- Substring containment `hay.includes needle` on character lists: JavaScript
`String.prototype.includes` (contiguous substring; the empty needle is
contained in every string). -/
def listIncludes (hay needle : List Char) : Bool :=
  match hay with
  | [] => needle.isEmpty
  | _ :: t => needle.isPrefixOf hay || listIncludes t needle

/-- JavaScript `a.includes(b)` on strings. -/
def jsIncludes (a b : String) : Bool :=
  listIncludes a.data b.data

/-- The static `locationCoordinates` table of `ItineraryMap.tsx`
(lines 47–77), in source (insertion/iteration) order; each value is the
`[longitude, latitude]` pair. -/
def locationCoordinates : List (String × ℚ × ℚ) :=
  [("Vashi", 73.0071, 19.0754),
   ("Belapur", 73.0358, 19.0235),
   ("Kharghar", 73.0785, 19.0477),
   ("Nerul", 73.0157, 19.0377),
   ("Panvel", 73.1088, 18.9894),
   ("Airoli", 72.9985, 19.1557),
   ("Ghansoli", 73.0085, 19.1162),
   ("Kopar Khairane", 73.0071, 19.1050),
   ("Sanpada", 73.0119, 19.0506),
   ("Turbhe", 73.0224, 19.0897),
   ("Seawoods", 73.0185, 19.0142),
   ("DY Patil Stadium", 73.0282, 19.0446),
   ("Central Park", 73.0169, 19.0343),
   ("Inorbit Mall", 73.0169, 19.0343),
   ("Wonder Park", 73.0074, 19.0137),
   ("Mini Seashore", 73.0215, 19.0240),
   ("Akshar Dhaam", 72.9962, 19.1030),
   ("Wonders Park", 73.0074, 19.0137),
   ("APMC Market", 73.0166, 19.0680),
   ("Parsik Hill", 73.0299, 19.0303),
   ("Palm Beach Road", 73.0222, 19.0037),
   ("Jewel of Navi Mumbai", 73.0173, 19.0340),
   ("Sagar Vihar", 73.0083, 19.0633),
   ("Golf Course", 73.0081, 19.0157),
   ("Nerul Balaji Temple", 73.0206, 19.0377),
   ("Flamingo Sanctuary", 73.0165, 19.0380),
   ("Science Centre", 73.0174, 19.0390),
   ("Raghuleela Mall", 73.0077, 19.0720),
   ("Belapur Fort", 73.0358, 19.0235)]

/-- Step 1 of the resolver, own-entry part: the stored coordinate array
when `loc` is an own key of the table literal (the arrays are always
truthy). The truthiness test `if (locationCoordinates[activity.location])`
(line 184) is not limited to own keys — JavaScript bracket access also
reaches members inherited from `Object.prototype`; the full read is
modelled by `bracketRead` below. -/
def exactMatch (loc : String) : Option (ℚ × ℚ) :=
  (locationCoordinates.find? (fun p => p.1 == loc)).map (·.2)

/-- The predicate of the `Object.keys(locationCoordinates).find` call
(lines 188–191): `activity.location.toLowerCase().includes(key.toLowerCase())
|| key.toLowerCase().includes(activity.location.toLowerCase())`. -/
def matchesKey (loc key : String) : Bool :=
  jsIncludes (lowerString loc) (lowerString key) ||
    jsIncludes (lowerString key) (lowerString loc)

/-- Step 2 of the resolver: first table key (in iteration order) matching
case-insensitively as a substring in either direction. -/
def fuzzyMatch (loc : String) : Option (ℚ × ℚ) :=
  (locationCoordinates.find? (fun p => matchesKey loc p.1)).map (·.2)

/-- The perturbation `(Math.random() - 0.5) * 0.02`, with the `Math.random()` result `u`
passed explicitly. -/
def randomOffset (u : ℚ) : ℚ := (u - 0.5) * 0.02

/-- Step 3 of the resolver: Navi Mumbai central coordinates with a small
random offset on each axis (line 198). -/
def fallbackCoord (u1 u2 : ℚ) : ℚ × ℚ :=
  (73.0169 + randomOffset u1, 19.0330 + randomOffset u2)

/-- The coordinate computed by lines 181–200 along the paths that produce
one: own-key hit, else substring match, else randomized fallback. `u1`,
`u2` are the two `Math.random()` draws used only in the fallback branch.
This is the whole resolver for every location string that is not an
`Object.prototype` member name (`resolveLocationJS_eq_coord` below); the
full function including the inherited-member crash path is
`resolveLocationJS`. -/
def resolveLocation (loc : String) (u1 u2 : ℚ) : ℚ × ℚ :=
  match exactMatch loc with
  | some c => c
  | none =>
    match fuzzyMatch loc with
    | some c => c
    | none => fallbackCoord u1 u2

/-- Own property names of `Object.prototype` (ECMA-262): for these, and
only these, a bracket read on a plain object literal with no matching own
key still yields a member inherited from the prototype chain — a function
(or, for the last entry, the prototype object), in every case truthy. -/
def objectPrototypeKeys : List String :=
  ["constructor", "hasOwnProperty", "isPrototypeOf", "propertyIsEnumerable",
   "toLocaleString", "toString", "valueOf", "__defineGetter__",
   "__defineSetter__", "__lookupGetter__", "__lookupSetter__", "__proto__"]

/-- The value of the bracket read `locationCoordinates[loc]`: an own
entry's coordinate array, a truthy non-coordinate inherited from
`Object.prototype`, or `undefined`. -/
inductive BracketValue where
  | coordinate (c : ℚ × ℚ)
  | inheritedMember
  | undefinedRead
deriving DecidableEq

/-- JavaScript property lookup on the table literal: own keys first, then
the `Object.prototype` chain, else `undefined`. -/
def bracketRead (loc : String) : BracketValue :=
  match exactMatch loc with
  | some c => .coordinate c
  | none =>
    if objectPrototypeKeys.contains loc then .inheritedMember else .undefinedRead

/-- Outcome of the resolution attempt for one activity: either a
coordinate (a marker is placed), or the crash path — a truthy inherited
member is assigned to `coordinates`, so the `!coordinates` guard
(line 202) does not fire, `coordinates[1]` and `coordinates[0]` are
`undefined`, and `L.marker` throws (caught at lines 249–252, putting the
whole render attempt into the error state). -/
inductive ResolveOutcome where
  | coord (c : ℚ × ℚ)
  | crash
deriving DecidableEq

/-- Lines 181–200 with full JavaScript bracket semantics: any truthy read
(own coordinate or inherited member) takes the exact branch; only an
`undefined` read reaches the substring and fallback steps. -/
def resolveLocationJS (loc : String) (u1 u2 : ℚ) : ResolveOutcome :=
  match bracketRead loc with
  | .coordinate c => .coord c
  | .inheritedMember => .crash
  | .undefinedRead =>
    match fuzzyMatch loc with
    | some c => .coord c
    | none => .coord (fallbackCoord u1 u2)

/-- For every location string that is not an `Object.prototype` member
name the two formulations agree, so theorems stated over
`resolveLocation` describe the real code at all such inputs. -/
theorem resolveLocationJS_eq_coord {loc : String}
    (hp : objectPrototypeKeys.contains loc = false) (u1 u2 : ℚ) :
    resolveLocationJS loc u1 u2 = .coord (resolveLocation loc u1 u2) := by
  unfold resolveLocationJS bracketRead resolveLocation
  cases hE : exactMatch loc with
  | some c => rfl
  | none =>
    rw [hp]
    cases hF : fuzzyMatch loc with
    | some c => rfl
    | none => rfl

/-- The 29 table keys are pairwise distinct, so exact lookup is unambiguous. -/
theorem locationKeys_nodup : (locationCoordinates.map Prod.fst).Nodup := by decide

/-- In an association list with pairwise-distinct keys, `find?` on key
equality returns exactly the member with that key. -/
theorem find?_key_of_mem {α β : Type} [BEq α] [LawfulBEq α]
    {l : List (α × β)} (hnd : (l.map Prod.fst).Nodup) {k : α} {c : β}
    (hm : (k, c) ∈ l) : l.find? (fun p => p.1 == k) = some (k, c) := by
  induction l with
  | nil => simp at hm
  | cons a t ih =>
    rw [List.map_cons, List.nodup_cons] at hnd
    rcases List.mem_cons.mp hm with h | h
    · subst h
      simp [List.find?_cons_of_pos]
    · have hne : (a.1 == k) = false := by
        simp only [beq_eq_false_iff_ne, ne_eq]
        intro e
        exact hnd.1 (e ▸ List.mem_map_of_mem Prod.fst h)
      rw [List.find?_cons, hne]
      exact ih hnd.2 h

/-- A literal table entry is found by the own-key lookup. -/
theorem exactMatch_of_mem {loc : String} {c : ℚ × ℚ}
    (hm : (loc, c) ∈ locationCoordinates) : exactMatch loc = some c := by
  unfold exactMatch
  rw [find?_key_of_mem locationKeys_nodup hm]
  rfl

/-- A string equal to no table key misses the own-key lookup. -/
theorem exactMatch_eq_none {loc : String}
    (hexact : ∀ p ∈ locationCoordinates, p.1 ≠ loc) :
    exactMatch loc = none := by
  unfold exactMatch
  rw [List.find?_eq_none.mpr (fun p hp => by simp [hexact p hp])]
  rfl

/-- Exact-match branch: a literal table entry resolves to its own
coordinate, whatever the random draws are. -/
theorem resolveLocation_of_mem {loc : String} {c : ℚ × ℚ}
    (hm : (loc, c) ∈ locationCoordinates) (u1 u2 : ℚ) :
    resolveLocation loc u1 u2 = c := by
  unfold resolveLocation
  rw [exactMatch_of_mem hm]

/-- With no exact match, the resolver returns the coordinate of the first
table key (in iteration order) that matches as a case-insensitive substring
in either direction. -/
theorem resolveLocation_fuzzy_first {loc : String} (u1 u2 : ℚ)
    (i : ℕ) (hi : i < locationCoordinates.length)
    (hexact : ∀ p ∈ locationCoordinates, p.1 ≠ loc)
    (hmatch : matchesKey loc (locationCoordinates.get ⟨i, hi⟩).1 = true)
    (hfirst : ∀ j (hj : j < i),
      matchesKey loc (locationCoordinates.get ⟨j, Nat.lt_trans hj hi⟩).1 = false) :
    resolveLocation loc u1 u2 = (locationCoordinates.get ⟨i, hi⟩).2 := by
  have he : exactMatch loc = none := by
    unfold exactMatch
    rw [List.find?_eq_none.mpr (fun p hp => by simp [hexact p hp])]
    rfl
  have hfind : locationCoordinates.find? (fun p => matchesKey loc p.1)
      = some (locationCoordinates.get ⟨i, hi⟩) :=
    List.find?_eq_some_iff_getElem.mpr
      ⟨by simpa using hmatch, i, hi, by simp,
       fun j hj => by simpa using hfirst j hj⟩
  have hfz : fuzzyMatch loc = some (locationCoordinates.get ⟨i, hi⟩).2 := by
    unfold fuzzyMatch
    rw [hfind]
    rfl
  unfold resolveLocation
  rw [he, hfz]

/-- With neither an exact nor a substring match, the resolver returns the
randomized fallback coordinate. -/
theorem resolveLocation_of_no_match {loc : String} (u1 u2 : ℚ)
    (hexact : ∀ p ∈ locationCoordinates, p.1 ≠ loc)
    (hfuzzy : ∀ p ∈ locationCoordinates, matchesKey loc p.1 = false) :
    resolveLocation loc u1 u2 = fallbackCoord u1 u2 := by
  have he : exactMatch loc = none := by
    unfold exactMatch
    rw [List.find?_eq_none.mpr (fun p hp => by simp [hexact p hp])]
    rfl
  have hfz : fuzzyMatch loc = none := by
    unfold fuzzyMatch
    rw [List.find?_eq_none.mpr (fun p hp => by simp [hfuzzy p hp])]
    rfl
  unfold resolveLocation
  rw [he, hfz]

/-- C1 counterexample: at the concrete input "toString" — which equals no
table key and has no case-insensitive substring match in either direction
— the claimed guaranteed fallback does not happen: the bracket check is
truthy on the inherited `Object.prototype.toString`, the code takes the
exact branch with a non-coordinate, and the marker construction throws,
so the resolver does not produce a coordinate there. -/
theorem C1_counterexample :
    (locationCoordinates.all fun p => !(p.1 == "toString")) = true
  ∧ (locationCoordinates.all fun p => !(matchesKey "toString" p.1)) = true
  ∧ resolveLocationJS "toString" 0 0 = .crash
  ∧ resolveLocationJS "toString" 0 0 ≠ .coord (fallbackCoord 0 0) :=
  ⟨by decide, by decide, rfl, by decide⟩

/-- C1 (amended): resolution precedence under full bracket semantics —
an own table key returns its literal coordinate; otherwise a location
naming an inherited `Object.prototype` member takes the truthy exact
branch with a non-coordinate and the marker construction throws (no
coordinate is produced); otherwise the first case-insensitively
substring-matching key in table iteration order wins; otherwise the
randomized fallback. Exactly one coordinate is produced for every
location string that is not an inherited member name. -/
theorem C1_resolver_precedence :
    (∀ (loc : String) (c : ℚ × ℚ) (u1 u2 : ℚ),
      (loc, c) ∈ locationCoordinates →
      resolveLocationJS loc u1 u2 = .coord c)
  ∧ (∀ (loc : String) (u1 u2 : ℚ) (i : ℕ)
      (hi : i < locationCoordinates.length),
      (∀ p ∈ locationCoordinates, p.1 ≠ loc) →
      objectPrototypeKeys.contains loc = false →
      matchesKey loc (locationCoordinates.get ⟨i, hi⟩).1 = true →
      (∀ j (hj : j < i),
        matchesKey loc (locationCoordinates.get ⟨j, Nat.lt_trans hj hi⟩).1 = false) →
      resolveLocationJS loc u1 u2 = .coord (locationCoordinates.get ⟨i, hi⟩).2)
  ∧ (∀ (loc : String) (u1 u2 : ℚ),
      (∀ p ∈ locationCoordinates, p.1 ≠ loc) →
      objectPrototypeKeys.contains loc = false →
      (∀ p ∈ locationCoordinates, matchesKey loc p.1 = false) →
      resolveLocationJS loc u1 u2 = .coord (fallbackCoord u1 u2))
  ∧ (∀ (loc : String) (u1 u2 : ℚ),
      (∀ p ∈ locationCoordinates, p.1 ≠ loc) →
      objectPrototypeKeys.contains loc = true →
      resolveLocationJS loc u1 u2 = .crash) := by
  refine ⟨fun loc c u1 u2 hm => ?_,
    fun loc u1 u2 i hi hex hproto hmat hfst => ?_,
    fun loc u1 u2 hex hproto hfz => ?_,
    fun loc u1 u2 hex hproto => ?_⟩
  · unfold resolveLocationJS bracketRead
    rw [exactMatch_of_mem hm]
  · rw [resolveLocationJS_eq_coord hproto,
        resolveLocation_fuzzy_first u1 u2 i hi hex hmat hfst]
  · rw [resolveLocationJS_eq_coord hproto,
        resolveLocation_of_no_match u1 u2 hex hfz]
  · unfold resolveLocationJS bracketRead
    rw [exactMatch_eq_none hex, hproto]
    rfl

/-- Witness for C1 (amended): exercises all four branches at concrete
inputs — the exact key `"Vashi"`, the substring input `"vashi station"`
(first matching key is the table's head, index 0), the fully unmatched
input `"Gateway"`, and the inherited member name `"toString"`. -/
theorem C1_resolver_precedence_witness :
    resolveLocationJS "Vashi" 0 0 = .coord (73.0071, 19.0754)
  ∧ resolveLocationJS "vashi station" 0 0 = .coord (73.0071, 19.0754)
  ∧ resolveLocationJS "Gateway" 0 0 = .coord (fallbackCoord 0 0)
  ∧ resolveLocationJS "toString" 0 0 = .crash := by
  refine ⟨?_, ?_, ?_, ?_⟩
  · exact C1_resolver_precedence.1 "Vashi" (73.0071, 19.0754) 0 0
      (by unfold locationCoordinates; exact List.mem_cons_self _ _)
  · exact C1_resolver_precedence.2.1 "vashi station" 0 0 0 (by decide)
      (by decide) (by decide) (by decide)
      (fun j hj => absurd hj (Nat.not_lt_zero j))
  · exact C1_resolver_precedence.2.2.1 "Gateway" 0 0 (by decide) (by decide)
      (by decide)
  · exact C1_resolver_precedence.2.2.2 "toString" 0 0 (by decide) (by decide)

/-- C2 counterexample: the empty location string does NOT fall through to
the randomized fallback. Because JavaScript `includes` holds for the empty
substring, `key.toLowerCase().includes("")` is true for every key, so the
empty string fuzzy-matches the first table key `"Vashi"` and the resolver
returns Vashi's table coordinate — a table entry whose latitude is 0.0424
away from the default center, outside the fallback's 0.01 band. -/
theorem C2_counterexample :
    resolveLocation "" 0 0 = (73.0071, 19.0754)
  ∧ ("Vashi", ((73.0071 : ℚ), (19.0754 : ℚ))) ∈ locationCoordinates
  ∧ ¬((19.0754 : ℚ) - 19.0330 ≤ 0.01) := by
  refine ⟨rfl, ?_, by norm_num⟩
  unfold locationCoordinates
  exact List.mem_cons_self _ _

/-- C2 (amended): an empty location string fuzzy-matches the first table
key (`"Vashi"`, since every key contains the empty substring) and a
whitespace-only string fuzzy-matches the first key containing that
whitespace (a single space matches `"Kopar Khairane"`); only a whitespace
string contained in no key (e.g. a tab) reaches the randomized fallback. -/
theorem C2_empty_matches_first_key (u1 u2 : ℚ) :
    resolveLocation "" u1 u2 = (73.0071, 19.0754)
  ∧ resolveLocation " " u1 u2 = (73.0071, 19.1050)
  ∧ resolveLocation "\t" u1 u2 = fallbackCoord u1 u2 :=
  ⟨rfl, rfl, rfl⟩

/-- The offset `(Math.random() - 0.5) * 0.02` lies within `[-0.01, 0.01]` whenever the
draw lies in `[0, 1)`. -/
theorem abs_randomOffset_le {u : ℚ} (h0 : 0 ≤ u) (h1 : u < 1) :
    |randomOffset u| ≤ 0.01 := by
  unfold randomOffset
  rw [abs_mul]
  have h2 : |u - 0.5| ≤ 0.5 := abs_le.mpr (by constructor <;> linarith)
  have h3 : |(0.02 : ℚ)| = 0.02 := abs_of_nonneg (by norm_num)
  calc |u - 0.5| * |(0.02 : ℚ)| ≤ 0.5 * 0.02 := by
        rw [h3]; exact mul_le_mul_of_nonneg_right h2 (by norm_num)
    _ = 0.01 := by norm_num

/-- C3 counterexample: the concrete input "toString" has no exact match
and no case-insensitive substring match against the table, yet the
resolver does not return a perturbed default-center coordinate: the
truthy inherited `Object.prototype.toString` intercepts resolution before
the fallback and the marker construction throws. -/
theorem C3_counterexample :
    (locationCoordinates.all fun p => !(p.1 == "toString")) = true
  ∧ (locationCoordinates.all fun p => !(matchesKey "toString" p.1)) = true
  ∧ resolveLocationJS "toString" (1 / 2) (1 / 2) = .crash
  ∧ resolveLocationJS "toString" (1 / 2) (1 / 2)
      ≠ .coord (fallbackCoord (1 / 2) (1 / 2)) :=
  ⟨by decide, by decide, rfl, by decide⟩

/-- C3 (amended): every location string with no exact match and no
case-insensitive substring match that does not name an inherited
`Object.prototype` member resolves to the fixed default center
`(73.0169, 19.0330)` perturbed by an offset in `[-0.01, 0.01]` on each
axis, the two offsets coming from the call's own independent random draws
`u1`, `u2` (one fresh pair per unmatched activity); strings naming
inherited members instead take the truthy exact branch and produce no
coordinate. -/
theorem C3_fallback_bounded (loc : String) (u1 u2 : ℚ)
    (hu1l : 0 ≤ u1) (hu1r : u1 < 1) (hu2l : 0 ≤ u2) (hu2r : u2 < 1)
    (hexact : ∀ p ∈ locationCoordinates, p.1 ≠ loc)
    (hproto : objectPrototypeKeys.contains loc = false)
    (hfuzzy : ∀ p ∈ locationCoordinates, matchesKey loc p.1 = false) :
    resolveLocationJS loc u1 u2 = .coord (fallbackCoord u1 u2)
  ∧ |(fallbackCoord u1 u2).1 - 73.0169| ≤ 0.01
  ∧ |(fallbackCoord u1 u2).2 - 19.0330| ≤ 0.01 := by
  refine ⟨?_, ?_, ?_⟩
  · rw [resolveLocationJS_eq_coord hproto,
        resolveLocation_of_no_match u1 u2 hexact hfuzzy]
  · have h : (fallbackCoord u1 u2).1 - 73.0169 = randomOffset u1 := by
      unfold fallbackCoord
      ring
    rw [h]
    exact abs_randomOffset_le hu1l hu1r
  · have h : (fallbackCoord u1 u2).2 - 19.0330 = randomOffset u2 := by
      unfold fallbackCoord
      ring
    rw [h]
    exact abs_randomOffset_le hu2l hu2r

/-- Witness for C3 (amended): the unmatched non-inherited input
`"Gateway"` with draws `u1 = u2 = 0` lands at
`(73.0169 - 0.01, 19.0330 - 0.01)`, within the band. -/
theorem C3_fallback_bounded_witness :
    resolveLocationJS "Gateway" 0 0 = .coord (fallbackCoord 0 0)
  ∧ |(fallbackCoord 0 0).1 - 73.0169| ≤ 0.01
  ∧ |(fallbackCoord 0 0).2 - 19.0330| ≤ 0.01 :=
  C3_fallback_bounded "Gateway" 0 0 (le_refl 0) zero_lt_one (le_refl 0)
    zero_lt_one (by decide) (by decide) (by decide)

/-! ### Marker builder (`ItineraryMap.tsx` lines 172–236) -/

/-- The itinerary activity record of the data model. -/
structure ItineraryActivity where
  time : String
  title : String
  location : String
  description : String
  image : Option String
  category : String
deriving DecidableEq

/-- One itinerary day: a 1-based day number with its ordered activities. -/
structure ItineraryDay where
  day : ℕ
  activities : List ItineraryActivity
deriving DecidableEq

/-- The fixed 7-entry `dayColors` palette (line 173), in source order. -/
def dayColors : List String :=
  ["#3B82F6", "#10B981", "#F59E0B", "#EF4444", "#8B5CF6", "#EC4899", "#06B6D4"]

/-- The expression `dayColors[(day.day - 1) % dayColors.length]` (line 177). -/
def dayColor (d : ℕ) : String :=
  dayColors.getD ((d - 1) % dayColors.length) ""

/-- A resolved map marker: one per activity, carrying the day label, the
day's palette color, the resolved coordinate and the popup fields. -/
structure Marker where
  day : ℕ
  color : String
  coord : ℚ × ℚ
  popupTitle : String
  popupTime : String
  popupLocation : String
deriving DecidableEq

/-- The markers built for one day (lines 176–235): every activity of the
day gets the day's color and its location's resolved coordinate. `rand`
supplies each activity's pair of `Math.random()` draws (used only when the
activity's location is unmatched). -/
def markersOfDay (rand : ℕ → ℚ × ℚ) (d : ItineraryDay) : List Marker :=
  d.activities.enum.map fun ia =>
    { day := d.day
      color := dayColor d.day
      coord := resolveLocation ia.2.location (rand ia.1).1 (rand ia.1).2
      popupTitle := ia.2.title
      popupTime := ia.2.time
      popupLocation := ia.2.location }

/-- All markers of an itinerary, in traversal order (day order, then
activity order). -/
def buildMarkers (rand : ℕ → ℕ → ℚ × ℚ) (itin : List ItineraryDay) : List Marker :=
  (itin.enum.map fun di => markersOfDay (rand di.1) di.2).flatten

/-- C4: every marker of a day with positive day number `d` is colored
`dayColors[(d - 1) % dayColors.length]` over the fixed 7-entry palette;
day 1 gets the first palette entry and day 8 wraps back to it. -/
theorem C4_day_colors (rand : ℕ → ℚ × ℚ) (d : ℕ) (hd : 0 < d)
    (acts : List ItineraryActivity) :
    (∀ m ∈ markersOfDay rand ⟨d, acts⟩,
        m.color = dayColors.getD ((d - 1) % dayColors.length) "")
  ∧ (d = 1 → ∀ m ∈ markersOfDay rand ⟨d, acts⟩, m.color = "#3B82F6")
  ∧ (d = 8 → ∀ m ∈ markersOfDay rand ⟨d, acts⟩, m.color = dayColors.getD 0 "") := by
  have hcol : ∀ m ∈ markersOfDay rand ⟨d, acts⟩, m.color = dayColor d := by
    intro m hm
    unfold markersOfDay at hm
    obtain ⟨ia, _, rfl⟩ := List.mem_map.mp hm
    rfl
  refine ⟨fun m hm => hcol m hm, ?_, ?_⟩
  · rintro rfl m hm
    rw [hcol m hm]
    rfl
  · rintro rfl m hm
    rw [hcol m hm]
    rfl

/-- Witness for C4: a concrete one-activity day — for day 1 the marker is
colored with the first palette entry, and the day-8 wrap clause holds. -/
theorem C4_day_colors_witness :
    (∀ m ∈ markersOfDay (fun _ => (0, 0))
        ⟨1, [⟨"09:00", "Lake walk", "Vashi", "", none, "nature"⟩]⟩,
      m.color = "#3B82F6")
  ∧ (∀ m ∈ markersOfDay (fun _ => (0, 0))
        ⟨8, [⟨"09:00", "Lake walk", "Vashi", "", none, "nature"⟩]⟩,
      m.color = dayColors.getD 0 "") :=
  ⟨(C4_day_colors (fun _ => (0, 0)) 1 Nat.one_pos
      [⟨"09:00", "Lake walk", "Vashi", "", none, "nature"⟩]).2.1 rfl,
   (C4_day_colors (fun _ => (0, 0)) 8 (by decide)
      [⟨"09:00", "Lake walk", "Vashi", "", none, "nature"⟩]).2.2 rfl⟩

/-! ### PDF paginator (`useItinerary.ts`, `downloadItineraryAsPdf`,
lines 449–495) -/

/-- Constant `pageHeight = 295` — A4 height in mm (line 451). -/
def pageHeight : ℚ := 295

/-- Constant `position = 30` — the content start offset on page 1 (line 467). -/
def startPosition : ℚ := 30

/-- The overflow loop (lines 483–495): while `heightLeft > 0`, add a page,
place the full image at `position - (pageHeight - 30)` with `position`
reset to `0`, and decrement `heightLeft` by `pageHeight`. Returns the list
of image y-offsets of the added pages, in order. -/
def overflowOffsets (heightLeft : ℚ) : List ℚ :=
  if h : 0 < heightLeft then
    (0 - (pageHeight - 30)) :: overflowOffsets (heightLeft - pageHeight)
  else []
termination_by (⌈heightLeft⌉).toNat
decreasing_by
  have h1 : (0 : ℤ) < ⌈heightLeft⌉ := Int.ceil_pos.mpr h
  have h2 : ⌈heightLeft - pageHeight⌉ = ⌈heightLeft⌉ - 295 := by
    unfold pageHeight
    rw [show (295 : ℚ) = ((295 : ℤ) : ℚ) by norm_num, Int.ceil_sub_int]
  omega

theorem overflowOffsets_pos {h : ℚ} (hh : 0 < h) :
    overflowOffsets h
      = (0 - (pageHeight - 30)) :: overflowOffsets (h - pageHeight) := by
  conv_lhs => unfold overflowOffsets
  rw [dif_pos hh]

theorem overflowOffsets_nonpos {h : ℚ} (hh : ¬0 < h) :
    overflowOffsets h = [] := by
  unfold overflowOffsets
  rw [dif_neg hh]

/-- Total page count: page 1 (placed at `startPosition`), after which
`heightLeft = imgHeight - (pageHeight - startPosition)` (line 480), plus
one page per overflow-loop iteration. -/
def pdfPageCount (imgHeight : ℚ) : ℕ :=
  1 + (overflowOffsets (imgHeight - (pageHeight - startPosition))).length

/-- C5: a scaled image of height exactly `295 - 30 = 265` yields 1 page and
height `265 + 295 + 1 = 561` yields 3 pages; in general the loop starts from
`heightLeft = imgHeight - (pageHeight - 30)` and adds one page per
iteration while `heightLeft > 0`, decrementing it by `pageHeight`. -/
theorem C5_pagination_counts :
    pdfPageCount 265 = 1
  ∧ pdfPageCount 561 = 3
  ∧ (∀ h : ℚ, pdfPageCount h
      = 1 + (overflowOffsets (h - (pageHeight - startPosition))).length)
  ∧ (∀ h : ℚ, 0 < h →
      (overflowOffsets h).length = (overflowOffsets (h - pageHeight)).length + 1)
  ∧ (∀ h : ℚ, ¬0 < h → (overflowOffsets h).length = 0) := by
  refine ⟨?_, ?_, fun h => rfl, ?_, ?_⟩
  · unfold pdfPageCount
    rw [show (265 : ℚ) - (pageHeight - startPosition) = 0 by
          unfold pageHeight startPosition; norm_num,
        overflowOffsets_nonpos (by norm_num)]
    rfl
  · unfold pdfPageCount
    rw [show (561 : ℚ) - (pageHeight - startPosition) = 296 by
          unfold pageHeight startPosition; norm_num,
        overflowOffsets_pos (by norm_num : (0 : ℚ) < 296),
        show (296 : ℚ) - pageHeight = 1 by unfold pageHeight; norm_num,
        overflowOffsets_pos (by norm_num : (0 : ℚ) < 1),
        show (1 : ℚ) - pageHeight = -294 by unfold pageHeight; norm_num,
        overflowOffsets_nonpos (by norm_num : ¬(0 : ℚ) < -294)]
    rfl
  · intro h hh
    rw [overflowOffsets_pos hh]
    rfl
  · intro h hh
    rw [overflowOffsets_nonpos hh]
    rfl

/-- Witness for C5: the loop recurrence at `heightLeft = 300` (one more
page) and the stop condition at `heightLeft = 0`. -/
theorem C5_pagination_counts_witness :
    (overflowOffsets 300).length
      = (overflowOffsets ((300 : ℚ) - pageHeight)).length + 1
  ∧ (overflowOffsets 0).length = 0 :=
  ⟨C5_pagination_counts.2.2.2.1 300 (by norm_num),
   C5_pagination_counts.2.2.2.2 0 (by norm_num)⟩

/-- C6 counterexample: for the 3-page image (scaled height 561) the loop
adds two overflow pages and places the image at the constant offset
`0 - (295 - 30) = -265` on BOTH; the claimed formula
`-(pageHeight - 30) * pageCount` would put the second added page at
`-530 ≠ -265`, so the offset does not depend on the page index. -/
theorem C6_counterexample :
    overflowOffsets ((561 : ℚ) - (pageHeight - startPosition))
      = [0 - (pageHeight - 30), 0 - (pageHeight - 30)]
  ∧ (0 - (pageHeight - 30) : ℚ) = -265
  ∧ (-265 : ℚ) ≠ -(pageHeight - 30) * 2 := by
  refine ⟨?_, by unfold pageHeight; norm_num, by unfold pageHeight; norm_num⟩
  rw [show (561 : ℚ) - (pageHeight - startPosition) = 296 by
        unfold pageHeight startPosition; norm_num,
      overflowOffsets_pos (by norm_num : (0 : ℚ) < 296),
      show (296 : ℚ) - pageHeight = 1 by unfold pageHeight; norm_num,
      overflowOffsets_pos (by norm_num : (0 : ℚ) < 1),
      show (1 : ℚ) - pageHeight = -294 by unfold pageHeight; norm_num,
      overflowOffsets_nonpos (by norm_num : ¬(0 : ℚ) < -294)]

/-- C6 (amended): every page added by the overflow loop places the full
image at the same constant vertical offset `-(pageHeight - 30) = -265`,
independent of both the page index and the remaining height (the code
resets `position` to `0` each iteration, so `position - (pageHeight - 30)`
never varies). -/
theorem C6_constant_offset (h : ℚ) :
    ∀ off ∈ overflowOffsets h, off = -(pageHeight - 30) := by
  induction h using overflowOffsets.induct with
  | case1 h hh ih =>
    rw [overflowOffsets_pos hh]
    intro off hoff
    rcases List.mem_cons.mp hoff with h1 | h1
    · rw [h1]; ring
    · exact ih off h1
  | case2 h1 hh =>
    rw [overflowOffsets_nonpos hh]
    intro off hoff
    exact absurd hoff (List.not_mem_nil off)

/-- Witness for C6 (amended): the offset emitted for `heightLeft = 296`
equals the constant `-(pageHeight - 30)`. -/
theorem C6_constant_offset_witness :
    (0 - (pageHeight - 30) : ℚ) = -(pageHeight - 30) :=
  C6_constant_offset 296 (0 - (pageHeight - 30))
    (by rw [overflowOffsets_pos (by norm_num : (0 : ℚ) < 296)]
        exact List.mem_cons_self _ _)

/-! ### Weather widget (`Weather.tsx`) -/

/-- The condition categories distinguished by `getWeatherIcon`
(each corresponds to one icon; `other` is the final `else` icon for codes
below 200 or in 400–499). -/
inductive WeatherCategory where
  | thunderstorm
  | drizzle
  | rain
  | snow
  | atmosphere
  | clear
  | clouds
  | other
deriving DecidableEq

/-- Function `getWeatherIcon` (`Weather.tsx` lines 32–51): the if/else-if chain
mapping an OpenWeatherMap condition code to one category. -/
def getWeatherIcon (weatherId : ℤ) : WeatherCategory :=
  if 200 ≤ weatherId ∧ weatherId < 300 then .thunderstorm
  else if 300 ≤ weatherId ∧ weatherId < 400 then .drizzle
  else if 500 ≤ weatherId ∧ weatherId < 600 then .rain
  else if 600 ≤ weatherId ∧ weatherId < 700 then .snow
  else if 700 ≤ weatherId ∧ weatherId < 800 then .atmosphere
  else if weatherId = 800 then .clear
  else if 800 < weatherId then .clouds
  else .other

/-- C7: the weather component maps every numeric condition code to exactly
one category, by range: 200–299 thunderstorm, 300–399 drizzle, 500–599
rain, 600–699 snow, 700–799 atmosphere, exactly 800 clear, and any code
greater than 800 clouds. -/
theorem C7_weather_ranges (weatherId : ℤ) :
    (200 ≤ weatherId ∧ weatherId < 300 → getWeatherIcon weatherId = .thunderstorm)
  ∧ (300 ≤ weatherId ∧ weatherId < 400 → getWeatherIcon weatherId = .drizzle)
  ∧ (500 ≤ weatherId ∧ weatherId < 600 → getWeatherIcon weatherId = .rain)
  ∧ (600 ≤ weatherId ∧ weatherId < 700 → getWeatherIcon weatherId = .snow)
  ∧ (700 ≤ weatherId ∧ weatherId < 800 → getWeatherIcon weatherId = .atmosphere)
  ∧ (weatherId = 800 → getWeatherIcon weatherId = .clear)
  ∧ (800 < weatherId → getWeatherIcon weatherId = .clouds) := by
  unfold getWeatherIcon
  refine ⟨fun h => ?_, fun h => ?_, fun h => ?_, fun h => ?_, fun h => ?_,
    fun h => ?_, fun h => ?_⟩ <;>
    split_ifs <;> first | rfl | omega

/-- Witness for C7: one representative code per range. -/
theorem C7_weather_ranges_witness :
    getWeatherIcon 211 = .thunderstorm
  ∧ getWeatherIcon 301 = .drizzle
  ∧ getWeatherIcon 500 = .rain
  ∧ getWeatherIcon 601 = .snow
  ∧ getWeatherIcon 741 = .atmosphere
  ∧ getWeatherIcon 800 = .clear
  ∧ getWeatherIcon 804 = .clouds :=
  ⟨(C7_weather_ranges 211).1 (by omega),
   (C7_weather_ranges 301).2.1 (by omega),
   (C7_weather_ranges 500).2.2.1 (by omega),
   (C7_weather_ranges 601).2.2.2.1 (by omega),
   (C7_weather_ranges 741).2.2.2.2.1 (by omega),
   (C7_weather_ranges 800).2.2.2.2.2.1 rfl,
   (C7_weather_ranges 804).2.2.2.2.2.2 (by omega)⟩

/-- The displayed weather reading (`WeatherData` minus the React icon
node, which is UI-only). -/
structure WeatherData where
  condition : String
  temperature : ℤ
  humidity : ℤ
  windSpeed : ℤ
deriving DecidableEq

/-- The relevant fields of a successful OpenWeatherMap response:
`weather[0].id`, `weather[0].description`, `main.temp`, `main.humidity`,
`wind.speed`. -/
structure WeatherPayload where
  id : ℤ
  description : String
  temp : ℚ
  humidity : ℤ
  windSpeed : ℚ

/-- JavaScript `Math.round` (round half toward `+∞`). -/
def jsRound (x : ℚ) : ℤ := ⌊x + 1 / 2⌋

/-- Function `getWeatherCondition` (lines 54–57): capitalize the first character of
the description. -/
def getWeatherCondition (s : String) : String :=
  match s.data with
  | [] => ""
  | c :: rest => ⟨c.toUpper :: rest⟩

/-- Outcome of the `fetch` in `fetchWeatherData`: a parsed payload, a
non-ok HTTP response (which the code turns into a thrown error), or a
thrown error. -/
inductive FetchOutcome where
  | success (p : WeatherPayload)
  | notOk
  | threw

/-- The component state written by `fetchWeatherData` (lines 64–111):
the weather reading, the loading flag, the error message, and the toasts
fired. On any failure it sets an error message, fires a destructive toast,
and substitutes the fixed placeholder reading; it never rethrows. -/
structure WeatherState where
  weather : Option WeatherData
  loading : Bool
  error : Option String
  toasts : List String
deriving DecidableEq

/-- Function `fetchWeatherData` as a state producer from the fetch outcome. -/
def fetchWeatherData (location : String) (o : FetchOutcome) : WeatherState :=
  match o with
  | .success d =>
    { weather := some
        { condition := getWeatherCondition d.description
          temperature := jsRound d.temp
          humidity := d.humidity
          windSpeed := jsRound (d.windSpeed * 3.6) }
      loading := false
      error := none
      toasts := [] }
  | _ =>
    { weather := some
        { condition := "Unknown", temperature := 25, humidity := 60, windSpeed := 10 }
      loading := false
      error := some ("Could not fetch weather data for " ++ location)
      toasts := ["Weather data error: Could not load weather for " ++ location
                  ++ ". Using default data."] }

/-- C8: on any fetch failure (non-ok response or thrown error) the
component sets the fixed placeholder reading (condition "Unknown",
temperature 25, humidity 60, wind speed 10), surfaces a user-visible
message (error text and a toast), finishes loading, and — being a total
function — never terminates the process. -/
theorem C8_weather_failure_fallback (location : String) (o : FetchOutcome)
    (hfail : o = .notOk ∨ o = .threw) :
    (fetchWeatherData location o).weather
        = some { condition := "Unknown", temperature := 25, humidity := 60, windSpeed := 10 }
  ∧ (fetchWeatherData location o).error
        = some ("Could not fetch weather data for " ++ location)
  ∧ (fetchWeatherData location o).toasts ≠ []
  ∧ (fetchWeatherData location o).loading = false := by
  rcases hfail with h | h <;> subst h <;>
    exact ⟨rfl, rfl, by simp [fetchWeatherData], rfl⟩

/-- Witness for C8: a non-ok response for "Navi Mumbai". -/
theorem C8_weather_failure_fallback_witness :
    (fetchWeatherData "Navi Mumbai" .notOk).weather
        = some { condition := "Unknown", temperature := 25, humidity := 60, windSpeed := 10 }
  ∧ (fetchWeatherData "Navi Mumbai" .notOk).error
        = some ("Could not fetch weather data for " ++ "Navi Mumbai")
  ∧ (fetchWeatherData "Navi Mumbai" .notOk).toasts ≠ []
  ∧ (fetchWeatherData "Navi Mumbai" .notOk).loading = false :=
  C8_weather_failure_fallback "Navi Mumbai" .notOk (Or.inl rfl)

/-! ### Map-instance lifecycle (`ItineraryMap.tsx` lines 116–267)

The component keeps the live Leaflet map in the `mapInstance` ref. We model
instances by numeric ids: `live` is the set of instances created and not
yet `remove()`d, `mapInstance` mirrors the ref. The events are the three
places the ref is touched: the settle-timer callback of the render effect
(lines 136–253), the dialog-close cleanup (lines 261–267), and the unmount
cleanup (lines 116–124). A cancelled timer simply contributes no event. -/

structure MapComponentState where
  mapInstance : Option ℕ
  live : List ℕ
  nextId : ℕ
  mapLoaded : Bool
  error : Option String
deriving DecidableEq

/-- Disposal idiom `mapInstance.current.remove(); mapInstance.current = null` — the
disposal idiom used at lines 118–121, 144–146 and 262–265. -/
def disposeCurrent (s : MapComponentState) : MapComponentState :=
  match s.mapInstance with
  | some m => { s with mapInstance := none, live := s.live.erase m }
  | none => s

/-- Events that touch the ref: the timer callback (with flags for whether
the container exists, whether `L.map` construction succeeds, and whether a
later statement of the `try` block throws), the dialog-close cleanup, and
the unmount cleanup. -/
inductive MapEvent where
  | timerFire (containerOk createOk errAfterCreate : Bool)
  | dialogClose
  | unmount

/-- One step of the lifecycle, translated from the three effects. On a
render attempt the existing instance is removed first (lines 143–147);
then `L.map` either throws (caught at lines 249–252) or yields a fresh
instance stored in the ref (line 161); a later throw inside the `try`
block leaves the created instance live and sets the error instead of
`mapLoaded`. -/
def mapStep (s : MapComponentState) : MapEvent → MapComponentState
  | .timerFire containerOk createOk errAfterCreate =>
    if !containerOk then { s with error := some "Map container not found" }
    else
      let s1 := disposeCurrent s
      if createOk then
        let s2 := { s1 with
          mapInstance := some s1.nextId
          live := s1.live ++ [s1.nextId]
          nextId := s1.nextId + 1 }
        if errAfterCreate then { s2 with error := some "Could not load the map" }
        else { s2 with mapLoaded := true }
      else { s1 with error := some "Could not load the map" }
  | .dialogClose => disposeCurrent s
  | .unmount => disposeCurrent s

/-- Initial component state: no ref, no live instance. -/
def mapInit : MapComponentState :=
  { mapInstance := none, live := [], nextId := 0, mapLoaded := false, error := none }

/-- The state after an arbitrary sequence of lifecycle events. -/
def runMap (events : List MapEvent) : MapComponentState :=
  events.foldl mapStep mapInit

/-- The ref/live-set invariant: the ref mirrors the live set, which holds
at most the one instance the ref points to. -/
def OneLive (s : MapComponentState) : Prop :=
  (s.mapInstance = none ∧ s.live = []) ∨
    ∃ m, s.mapInstance = some m ∧ s.live = [m]

theorem disposeCurrent_oneLive {s : MapComponentState} (h : OneLive s) :
    (disposeCurrent s).mapInstance = none ∧ (disposeCurrent s).live = [] := by
  rcases h with ⟨h1, h2⟩ | ⟨m, h1, h2⟩
  · unfold disposeCurrent
    rw [h1]
    exact ⟨h1, h2⟩
  · unfold disposeCurrent
    rw [h1]
    refine ⟨rfl, ?_⟩
    simp [h2]

theorem mapStep_oneLive {s : MapComponentState} (h : OneLive s)
    (e : MapEvent) : OneLive (mapStep s e) := by
  obtain ⟨href, hlive⟩ := disposeCurrent_oneLive h
  cases e with
  | timerFire containerOk createOk errAfterCreate =>
    unfold mapStep
    cases containerOk with
    | false =>
      simp only [Bool.not_false, if_pos]
      rcases h with ⟨h1, h2⟩ | ⟨m, h1, h2⟩
      · exact Or.inl ⟨h1, h2⟩
      · exact Or.inr ⟨m, h1, h2⟩
    | true =>
      simp only [Bool.not_true, Bool.false_eq_true, if_false]
      cases createOk with
      | false => simp only [Bool.false_eq_true, if_false]; exact Or.inl ⟨href, hlive⟩
      | true =>
        cases errAfterCreate with
        | false =>
          simp only [if_pos, Bool.false_eq_true, if_false]
          exact Or.inr ⟨(disposeCurrent s).nextId, rfl, by rw [hlive]; rfl⟩
        | true =>
          simp only [if_pos]
          exact Or.inr ⟨(disposeCurrent s).nextId, rfl, by rw [hlive]; rfl⟩
  | dialogClose => exact Or.inl ⟨href, hlive⟩
  | unmount => exact Or.inl ⟨href, hlive⟩

theorem foldl_oneLive (events : List MapEvent) :
    ∀ s : MapComponentState, OneLive s → OneLive (events.foldl mapStep s) := by
  induction events with
  | nil => exact fun s h => h
  | cons e rest ih => exact fun s h => ih (mapStep s e) (mapStep_oneLive h e)

/-- C9: after every sequence of lifecycle events — in particular any
hide-then-show in rapid succession, since each render attempt first
disposes the existing instance — at most one map instance is live, and the
ref points to it exactly when it exists. -/
theorem C9_single_live_instance (events : List MapEvent) :
    (runMap events).live.length ≤ 1 ∧ OneLive (runMap events) := by
  have h : OneLive (runMap events) :=
    foldl_oneLive events mapInit (Or.inl ⟨rfl, rfl⟩)
  refine ⟨?_, h⟩
  rcases h with ⟨_, h2⟩ | ⟨m, _, h2⟩ <;> rw [h2] <;> simp

/-! ### Data-access hook (`useItinerary.ts`)

The Supabase backend is modelled as two tables; each operation returns the
new table state plus its outcome, the backend calls it issued, and the
toasts it fired. Backend failures are injected through explicit error
flags standing for the `error` results of the awaited calls. -/

/-- The `itineraryData` argument of `saveItinerary`/`updateItinerary`, with
`start_date` already converted to its ISO string (`toISOString`). -/
structure ItineraryFormData where
  title : String
  days : ℕ
  start_date : Option String
  pace : String
  budget : String
  interests : List String
  transportation : String
  include_food : Bool
deriving DecidableEq

/-- A `user_itineraries` row. -/
structure ItineraryRow where
  id : String
  user_id : String
  title : String
  days : ℕ
  start_date : Option String
  pace : String
  budget : String
  interests : List String
  transportation : String
  include_food : Bool
  updated_at : String
deriving DecidableEq

/-- An `itinerary_activities` row. -/
structure ActivityRow where
  itinerary_id : String
  day : ℕ
  time : String
  title : String
  location : String
  description : Option String
  image : Option String
  category : Option String
deriving DecidableEq

/-- The stored backend state. -/
structure DbState where
  itineraries : List ItineraryRow
  activities : List ActivityRow
deriving DecidableEq

/-- Result of a mutating operation: new backend state, the boolean the
function returns, the backend calls issued, and the toasts fired. -/
structure MutationResult where
  db : DbState
  ok : Bool
  calls : List String
  toasts : List String
deriving DecidableEq

/-- JavaScript `x || null` on a string (the empty string is falsy). -/
def strOrNull (s : String) : Option String :=
  if s = "" then none else some s

/-- JavaScript `x || null` on an optional string. -/
def optOrNull (s : Option String) : Option String :=
  match s with
  | none => none
  | some v => strOrNull v

/-- The activity rows built by the `itinerary.flatMap` of
`saveItinerary` (lines 245–256) / `updateItinerary` (lines 363–374). -/
def activityRowsOf (itineraryId : String) (itin : List ItineraryDay) :
    List ActivityRow :=
  (itin.map fun d => d.activities.map fun a =>
    { itinerary_id := itineraryId
      day := d.day
      time := a.time
      title := a.title
      location := a.location
      description := strOrNull a.description
      image := optOrNull a.image
      category := strOrNull a.category }).flatten

/-- Function `deleteItinerary` (lines 148–184): signed-out guard, then a backend
delete keyed on the row id and the user id. -/
def deleteItinerary (user : Option String) (db : DbState) (id : String)
    (backendErr : Bool) : MutationResult :=
  match user with
  | none => { db := db, ok := false, calls := [], toasts := [] }
  | some uid =>
    if backendErr then
      { db := db, ok := false, calls := ["delete user_itineraries"],
        toasts := ["Error deleting itinerary"] }
    else
      { db := { db with itineraries :=
          db.itineraries.filter fun r => !(r.id == id && r.user_id == uid) }
        ok := true
        calls := ["delete user_itineraries"]
        toasts := ["Itinerary deleted"] }

/-- Function `saveItinerary` (lines 186–294): signed-out guard (toast, return
false), then insert the itinerary row (`newId`, `now` standing for the
generated id and timestamp), then insert the activity rows, then refresh
the list. -/
def saveItinerary (user : Option String) (db : DbState)
    (d : ItineraryFormData) (itin : List ItineraryDay) (newId now : String)
    (itineraryErr activitiesErr : Bool) : MutationResult :=
  match user with
  | none =>
    { db := db, ok := false, calls := [], toasts := ["Authentication required"] }
  | some uid =>
    if itineraryErr then
      { db := db, ok := false, calls := ["insert user_itineraries"],
        toasts := ["Error saving itinerary"] }
    else
      let db1 := { db with itineraries := db.itineraries ++
        [{ id := newId, user_id := uid, title := d.title, days := d.days,
           start_date := d.start_date, pace := d.pace, budget := d.budget,
           interests := d.interests, transportation := d.transportation,
           include_food := d.include_food, updated_at := now }] }
      if activitiesErr then
        { db := db1, ok := false,
          calls := ["insert user_itineraries", "insert itinerary_activities"],
          toasts := ["Error saving itinerary"] }
      else
        { db := { db1 with activities :=
            db1.activities ++ activityRowsOf newId itin }
          ok := true
          calls := ["insert user_itineraries", "insert itinerary_activities",
                    "select user_itineraries"]
          toasts := ["Itinerary saved"] }

/-- Function `updateItinerary` (lines 296–405): signed-out guard (toast, return
false), then update the row keyed on id and user id, delete the old
activity rows, insert the new ones, refresh the list. -/
def updateItinerary (user : Option String) (db : DbState) (id : String)
    (d : ItineraryFormData) (itin : List ItineraryDay) (now : String)
    (updateErr deleteActsErr insertActsErr : Bool) : MutationResult :=
  match user with
  | none =>
    { db := db, ok := false, calls := [], toasts := ["Authentication required"] }
  | some uid =>
    if updateErr then
      { db := db, ok := false, calls := ["update user_itineraries"],
        toasts := ["Error updating itinerary"] }
    else
      let db1 := { db with itineraries := db.itineraries.map fun r =>
        if r.id == id && r.user_id == uid then
          { r with
            title := d.title
            days := d.days
            start_date := d.start_date
            pace := d.pace
            budget := d.budget
            interests := d.interests
            transportation := d.transportation
            include_food := d.include_food
            updated_at := now }
        else r }
      if deleteActsErr then
        { db := db1, ok := false,
          calls := ["update user_itineraries", "delete itinerary_activities"],
          toasts := ["Error updating itinerary"] }
      else
        let db2 := { db1 with activities :=
          db1.activities.filter fun a => !(a.itinerary_id == id) }
        if insertActsErr then
          { db := db2, ok := false,
            calls := ["update user_itineraries", "delete itinerary_activities",
                      "insert itinerary_activities"],
            toasts := ["Error updating itinerary"] }
        else
          { db := { db2 with activities :=
              db2.activities ++ activityRowsOf id itin }
            ok := true
            calls := ["update user_itineraries", "delete itinerary_activities",
                      "insert itinerary_activities", "select user_itineraries"]
            toasts := ["Itinerary updated"] }

/-- The Supabase ordering `order('day').order('time')` on activity rows. -/
def byDayTime (a b : ActivityRow) : Bool :=
  a.day < b.day || (a.day == b.day && a.time ≤ b.time)

/-- One `ItineraryActivity` from a stored row (lines 118–125). -/
def activityOfRow (r : ActivityRow) : ItineraryActivity :=
  { time := r.time, title := r.title, location := r.location,
    description := r.description.getD "", image := r.image,
    category := r.category.getD "" }

/-- The `days` accumulator of `fetchItineraryById` (lines 108–126): append
the activity to the existing entry for its day, or start a new entry. -/
def addActivityToDays (acc : List ItineraryDay) (row : ActivityRow) :
    List ItineraryDay :=
  if acc.any fun d => d.day == row.day then
    acc.map fun d =>
      if d.day == row.day then
        { d with activities := d.activities ++ [activityOfRow row] }
      else d
  else acc ++ [{ day := row.day, activities := [activityOfRow row] }]

/-- Function `fetchItineraryById` (lines 80–146): signed-out guard (return null),
`.single()` select of the row (an error — including zero rows — yields
null), select of the activities ordered by day then time, then grouping by
day and sorting by day. Returns the result and the backend calls issued. -/
def fetchItineraryById (user : Option String) (db : DbState) (id : String)
    (activitiesErr : Bool) :
    Option (ItineraryRow × List ItineraryDay) × List String :=
  match user with
  | none => (none, [])
  | some uid =>
    match db.itineraries.find? fun r => r.id == id && r.user_id == uid with
    | none => (none, ["select user_itineraries"])
    | some row =>
      if activitiesErr then
        (none, ["select user_itineraries", "select itinerary_activities"])
      else
        let rows := (db.activities.filter fun a =>
          a.itinerary_id == id).mergeSort byDayTime
        (some (row, (rows.foldl addActivityToDays []).mergeSort
            fun a b => decide (a.day ≤ b.day)),
         ["select user_itineraries", "select itinerary_activities"])

/-- C10: with no signed-in user every operation of the hook returns
immediately — `deleteItinerary`, `saveItinerary` and `updateItinerary`
return `false`, `fetchItineraryById` returns `null` — issuing no backend
call and leaving the stored tables unchanged. -/
theorem C10_signed_out_guards (db : DbState) (id newId now : String)
    (d : ItineraryFormData) (itin : List ItineraryDay)
    (e1 e2 e3 e4 e5 e6 e7 : Bool) :
    deleteItinerary none db id e1
        = { db := db, ok := false, calls := [], toasts := [] }
  ∧ (saveItinerary none db d itin newId now e2 e3).ok = false
  ∧ (saveItinerary none db d itin newId now e2 e3).db = db
  ∧ (saveItinerary none db d itin newId now e2 e3).calls = []
  ∧ (updateItinerary none db id d itin now e4 e5 e6).ok = false
  ∧ (updateItinerary none db id d itin now e4 e5 e6).db = db
  ∧ (updateItinerary none db id d itin now e4 e5 e6).calls = []
  ∧ fetchItineraryById none db id e7 = (none, []) :=
  ⟨rfl, rfl, rfl, rfl, rfl, rfl, rfl, rfl⟩

end NaviTrip
